import Mathlib

/-!
Verification development for the rpm-s3-mirror repository.

The definitions below are a shallow embedding of the Python sources
(`rpm_s3_mirror/mirror.py`, `rpm_s3_mirror/s3.py`, `rpm_s3_mirror/repository.py`,
`rpm_s3_mirror/util.py`).  Pure string/list computations are translated
directly; effectful code (S3 calls, HTTP downloads) is modelled by explicit
action traces; the external hash (hashlib.sha256) and the external
compressors (gzip.compress, lzma.compress) are kept as opaque function
parameters; Python byte strings are modelled as Lean strings; the bytes of
an XML file are identified with the serialization of its parsed element
tree; exceptions are modelled with Except/Option.
-/

namespace RpmS3

/-! ## Package records (repository.py, class Package) -/

/-- Embedding of repository.py class Package: the slots extracted from one
package element of primary.xml.  version/epoch/release are the ver/epoch/rel
attributes; destination and url are derived in the constructor. -/
structure Package where
  base_url : String
  name : String
  checksum : String
  checksum_type : String
  location : String
  destination : String
  version : String
  epoch : String
  package_size : Nat
  release : String
  url : String
deriving DecidableEq

/-- Package identity key, repository.py Package._key: used by __eq__ and
__hash__, hence by all set operations on packages. -/
def pkgKey (p : Package) : String × String × String × String × String :=
  (p.name, p.version, p.epoch, p.release, p.checksum)

/-- Membership of a package in a list up to the Package identity key: models
membership in a Python set of Packages. -/
def keyMem (p : Package) (xs : List Package) : Bool :=
  xs.any (fun q => pkgKey q == pkgKey p)

/-- Set difference under the Package identity key: models
set(xs).difference(set(ys)) as used in mirror.py. -/
def keyDiff (xs ys : List Package) : List Package :=
  xs.filter (fun p => !(keyMem p ys))

/-! ## diff_snapshots (mirror.py lines 190-225) -/

/-- The changed-package set computed by Mirror.diff_snapshots line 213:
changed_packages = set(repo2_snapshot_list).difference(set(repo1_snapshot_list)),
where repo1 is the NEW snapshot and repo2 is the OLD snapshot. -/
def changedPackages (newList oldList : List Package) : List Package :=
  keyDiff oldList newList

/-- Lookup in the dict new_packages = \x7bpackage.name: package for package in
repo1_snapshot_list\x7d (mirror.py line 215): a Python dict comprehension keeps
the last binding of each key. -/
def nameDict (ps : List Package) (nm : String) : Option Package :=
  ps.reverse.find? (fun p => p.name == nm)

/-- The updated-entries mapping built by Mirror.diff_snapshots lines 217-224:
for each changed (old-side) package whose name is found among the new
snapshot's packages, report name -> [[old version, old release],
[new version, new release]].  Dict insertion order is irrelevant to the
properties proved below, so the dict is modelled as the association list of
its insertions. -/
def diffUpdated (newList oldList : List Package) :
    List (String × ((String × String) × (String × String))) :=
  (changedPackages newList oldList).filterMap (fun p =>
    (nameDict newList p.name).map (fun orig =>
      (p.name, ((p.version, p.release), (orig.version, orig.release)))))

/-- Per-repository data that diff_snapshots reads: the primary checksum
recorded in the snapshot's repomd.xml, and the package list parsed from the
snapshot's primary.xml. -/
structure SnapshotRepo where
  primaryChecksum : String
  packages : List Package
deriving DecidableEq

/-- One repository iteration of Mirror.diff_snapshots (lines 197-224):
util.primary_xml_checksums_equal compares repo1's and repo2's primary
checksums; on equality the loop continues, producing no diff entry for the
repository and never downloading or parsing the primary package lists.  The
Bool records whether the primary package lists were downloaded and parsed.
repo1 is built from the new snapshot and repo2 from the old snapshot. -/
def diffSnapshotsRepo (repo1 repo2 : SnapshotRepo) :
    Option (List (String × ((String × String) × (String × String)))) × Bool :=
  if repo1.primaryChecksum == repo2.primaryChecksum then (none, false)
  else (some (diffUpdated repo1.packages repo2.packages), true)

/-! ## Snapshot id validation (mirror.py lines 22-23 and 227-236) -/

/-- One character of the class [A-Za-z0-9_-]. -/
def snapChar (c : Char) : Bool :=
  ('A' ≤ c && c ≤ 'Z') || ('a' ≤ c && c ≤ 'z') || ('0' ≤ c && c ≤ '9') ||
    c == '_' || c == '-'

/-- Full (mathematical) match of a character list against [A-Za-z0-9_-]+. -/
def matchChars (cs : List Char) : Bool :=
  !cs.isEmpty && cs.all snapChar

/-- Python re.match(r"^[A-Za-z0-9_-]+$", s) semantics: the dollar anchor also
matches just before a single trailing newline, so a body followed by one
final newline is accepted as well. -/
def pyMatchChars (cs : List Char) : Bool :=
  matchChars cs ||
    (match cs.getLast? with
     | some c => (c == '\n') && matchChars cs.dropLast
     | none => false)

/-- Mathematical full match of a string against ^[A-Za-z0-9_-]+$ (the reading
used by the specification). -/
def mathMatch (s : String) : Bool := matchChars s.data

/-- Embedding of re.match(VALID_SNAPSHOT_REGEX, snapshot_id) in
Mirror._validate_snapshot_id. -/
def reMatchSnapshot (s : String) : Bool := pyMatchChars s.data

/-- Python "\n" in s. -/
def hasNewline (s : String) : Bool := s.data.any (fun c => c == '\n')

/-- util.get_snapshot_directory: join(base_path, "snapshots", snapshot_id). -/
def getSnapshotDirectory (basePath snapshotId : String) : String :=
  basePath ++ "/snapshots/" ++ snapshotId

/-- Embedding of Mirror._validate_snapshot_id (mirror.py lines 227-236):
raise InvalidSnapshotID when the regex does not match, when the id contains
a newline, or when some repository already has a snapshot directory with
this id (the s3.exists check, modelled by the dirExists oracle over the
configured repository base paths). -/
def validateSnapshotId (dirExists : String → Bool) (repoPaths : List String)
    (s : String) : Except String Unit :=
  if !(reMatchSnapshot s) then Except.error "InvalidSnapshotID: regex"
  else if hasNewline s then Except.error "InvalidSnapshotID: newline"
  else if repoPaths.any (fun r => dirExists (getSnapshotDirectory r s)) then
    Except.error "InvalidSnapshotID: existing snapshot"
  else Except.ok ()

/-- True when the call raised. -/
def isErr : Except String Unit → Bool
  | Except.error _ => true
  | Except.ok _ => false

/-! ## The transfer task S3._sync_object (s3.py lines 116-143) -/

/-- The fields of a transfer object (a Package or a RepodataSection) that
S3._sync_object reads. -/
structure RepoObject where
  url : String
  destination : String
  checksum_type : String
  checksum : String
deriving DecidableEq

/-- Python destination.replace("+", " "): the pattern is the single
character +, so the replacement is a character map. -/
def workaroundKey (d : String) : String :=
  String.mk (d.data.map (fun c => if c == '+' then ' ' else c))

/-- Python "+" in destination. -/
def containsPlus (d : String) : Bool := d.data.contains '+'

/-- The skip-existing condition of s3.py lines 120-122, exactly as written:
("+" in repo_object.destination and self._object_exists(workaround_destination))
and self._object_exists(repo_object.destination).  ex is the object-store
existence oracle. -/
def skipCheck (ex : String → Bool) (d : String) : Bool :=
  (containsPlus d && ex (workaroundKey d)) && ex d

/-- Observable S3/HTTP actions performed by a transfer task. -/
inductive S3Action where
  | head (key : String)
  | download (url : String)
  | validate (path : String)
  | put (key : String)
  | unlink (path : String)
deriving DecidableEq

/-- Python os.path.basename: the part of the path after the last slash. -/
def basename (s : String) : String :=
  String.mk (s.data.foldl (fun acc c => if c == '/' then [] else acc ++ [c]) [])

/-- The HEAD requests issued while evaluating skipCheck, following Python
short-circuit evaluation: the workaround key is only probed when the
destination contains +, and the exact key only when that probe succeeded. -/
def headTrace (ex : String → Bool) (o : RepoObject) : List S3Action :=
  if containsPlus o.destination then
    S3Action.head (workaroundKey o.destination) ::
      (if ex (workaroundKey o.destination) then [S3Action.head o.destination] else [])
  else []

/-- The download/validate/upload/unlink tail of S3._sync_object lines
126-143: stream-download to temp_dir/basename(url), checksum-validate, PUT
the destination, PUT the workaround duplicate when the destination contains
+, then best-effort unlink. -/
def transferTrace (tempDir : String) (o : RepoObject) : List S3Action :=
  let path := tempDir ++ "/" ++ basename o.url
  [S3Action.download o.url, S3Action.validate path, S3Action.put o.destination] ++
    (if containsPlus o.destination then [S3Action.put (workaroundKey o.destination)] else []) ++
    [S3Action.unlink path]

/-- Embedding of S3._sync_object (s3.py lines 116-143) as the trace of
actions it performs: under skip_existing, the existence probes run first and
the task returns after them when the condition of lines 120-122 holds. -/
def syncObject (ex : String → Bool) (tempDir : String) (skipExisting : Bool)
    (o : RepoObject) : List S3Action :=
  if skipExisting then
    if skipCheck ex o.destination then headTrace ex o
    else headTrace ex o ++ transferTrace tempDir o
  else transferTrace tempDir o

/-! ## Mirror._sync_repository control flow (mirror.py lines 65-125) -/

/-- The S3-visible phases of one repository sync, in program order. -/
inductive SyncStep where
  | skipRepo
  | syncPackages (packages : List Package) (skipExisting : Bool)
  | archiveRepomd
  | putManifest (synced : List Package)
  | cutoverCall
deriving DecidableEq

/-- Embedding of Mirror._sync_repository (mirror.py lines 65-125): under
bootstrap the whole upstream list is synced and no manifest is written;
otherwise the repository is skipped when upstream has no updates, and else
the key-difference upstream minus mirror is computed and s3.sync_packages,
archive_repomd, put_manifest and the final overwrite_repomd call follow
unconditionally (there is no emptiness guard on the difference).
syncPackages also transfers every upstream repodata section, not shown in
the step payload.  cutoverCall is the call of line 119, whose own behaviour
is modelled by mirrorCutover below. -/
def syncRepository (bootstrap hasUpdates : Bool) (upstream mirror : List Package) :
    List SyncStep :=
  if bootstrap then
    [SyncStep.syncPackages upstream true, SyncStep.cutoverCall]
  else if !hasUpdates then [SyncStep.skipRepo]
  else
    [SyncStep.syncPackages (keyDiff upstream mirror) false, SyncStep.archiveRepomd,
      SyncStep.putManifest (keyDiff upstream mirror), SyncStep.cutoverCall]

/-! ## The cutover call (mirror.py line 119, s3.py lines 81-84) -/

/-- Python errors relevant to the embedded call protocol. -/
inductive PyError where
  | typeError
  | nameError
deriving DecidableEq

/-- A put_object invocation: destination key, local file used as body, and
the Cache-Control max-age. -/
structure PutCall where
  key : String
  localPath : String
  cacheAge : Nat
deriving DecidableEq

/-- urlparse(url).path for an https URL: everything from the first slash
after the network location. -/
def urlPath (u : String) : String :=
  let rest := if u.startsWith "https://" then u.drop 8 else u
  match rest.splitOn "/" with
  | [] => ""
  | _ :: tail => "/" ++ String.intercalate "/" tail

/-- S3._trim_key (s3.py lines 211-216): strip one leading slash. -/
def trimKey (s : String) : String :=
  if s.startsWith "/" then s.drop 1 else s

/-- Embedding of the call protocol of S3.overwrite_repomd (s3.py lines
81-84): def overwrite_repomd(self, repomd_xml_local_path, base_url).  Both
parameters are required; a call that omits repomd_xml_local_path raises
TypeError.  When both are supplied the body PUTs the given local file at
urlparse(base_url + "repodata/repomd.xml").path with cache_age=0; nothing in
the function downloads anything. -/
def overwriteRepomdCall (repomdXmlLocalPath baseUrl : Option String) :
    Except PyError PutCall :=
  match repomdXmlLocalPath, baseUrl with
  | some p, some b =>
      Except.ok { key := trimKey (urlPath (b ++ "repodata/repomd.xml")),
                  localPath := p, cacheAge := 0 }
  | _, _ => Except.error PyError.typeError

/-- The cutover call site, mirror.py line 119:
self.s3.overwrite_repomd(base_url=upstream_repository.base_url) passes only
the base_url keyword, leaving repomd_xml_local_path unbound. -/
def mirrorCutover (baseUrl : String) : Except PyError PutCall :=
  overwriteRepomdCall none (some baseUrl)

/-! ## Mirror.sync_snapshot (mirror.py lines 166-188) -/

/-- A repodata section as parsed by RPMRepository.parse_repomd
(repository.py namedtuple RepodataSection), restricted to the fields
sync_snapshot reads. -/
structure RepodataSection where
  url : String
  location : String
  destination : String
  checksum_type : String
  checksum : String
deriving DecidableEq

/-- Local path produced by util.download_file: join(temp_dir, basename(url)).
The snapshot's repomd.xml is downloaded first, to temp_dir/repomd.xml. -/
def snapshotRepomdLocal (tempDir : String) : String := tempDir ++ "/repomd.xml"

/-- Embedding of the per-repository body of Mirror.sync_snapshot (mirror.py
lines 170-188) as the ordered list of (destination key, local body path)
put_object calls: each section is downloaded to temp_dir/basename(url),
validated, and PUT at join(snapshot_path, section.location); afterwards the
loop variable local_path still holds the LAST section's file and it is that
file which is PUT at join(snapshot_path, "repodata", "repomd.xml").  With no
sections the final statement reads the unbound name local_path (NameError).
-/
def syncSnapshotRepo (tempDir snapshotPath : String)
    (sections : List RepodataSection) :
    Except PyError (List (String × String)) :=
  let sectionPuts := sections.map (fun s =>
    (snapshotPath ++ "/" ++ s.location, tempDir ++ "/" ++ basename s.url))
  match sections.getLast? with
  | none => Except.error PyError.nameError
  | some lastSection =>
      Except.ok (sectionPuts ++
        [(snapshotPath ++ "/repodata/repomd.xml",
          tempDir ++ "/" ++ basename lastSection.url)])

/-! ## XML element trees (repository.py / lxml)

lxml Elements are modelled by a tree of tag, attribute list, text and child
elements; namespace prefixes are dropped from tags, matching how the source
strips them after parsing.  tostring(root) is modelled by the deterministic
serializer below, and the byte content of an XML file is identified with
the serialization of its parsed tree. -/

/-- An XML element: tag, attributes in document order, text, children. -/
inductive Xml where
  | node (tag : String) (attrs : List (String × String)) (text : String)
      (children : List Xml)

/-- Tag accessor. -/
def Xml.tag : Xml → String
  | Xml.node t _ _ _ => t

/-- Attribute-list accessor. -/
def Xml.attrs : Xml → List (String × String)
  | Xml.node _ a _ _ => a

/-- Text accessor. -/
def Xml.text : Xml → String
  | Xml.node _ _ tx _ => tx

/-- Children accessor. -/
def Xml.children : Xml → List Xml
  | Xml.node _ _ _ _cs => _cs

/-- Replace the children of an element. -/
def Xml.withChildren : Xml → List Xml → Xml
  | Xml.node t a tx _, cs => Xml.node t a tx cs

/-- Replace the text of an element (lxml element.text assignment). -/
def Xml.withText : Xml → String → Xml
  | Xml.node t a _ cs, tx => Xml.node t a tx cs

/-- Replace the attribute list of an element. -/
def Xml.withAttrs : Xml → List (String × String) → Xml
  | Xml.node t _ tx cs, a => Xml.node t a tx cs

/-- lxml element.get(key): the value of the first attribute with this key. -/
def attrGet (l : List (String × String)) (k : String) : Option String :=
  match l with
  | [] => none
  | kv :: rest => if kv.1 == k then some kv.2 else attrGet rest k

/-- lxml element.set(key, value): overwrite an existing attribute in place,
or append a new one. -/
def attrSet (l : List (String × String)) (k v : String) :
    List (String × String) :=
  if l.any (fun kv => kv.1 == k) then
    l.map (fun kv => if kv.1 == k then (kv.1, v) else kv)
  else l ++ [(k, v)]

/-- element.get on an element. -/
def getAttr (x : Xml) (k : String) : Option String := attrGet x.attrs k

/-- element.set on an element. -/
def setAttr (x : Xml) (k v : String) : Xml := x.withAttrs (attrSet x.attrs k v)

/-- Serialization of an attribute list. -/
def attrText (attrs : List (String × String)) : String :=
  attrs.foldl (fun acc kv => acc ++ " " ++ kv.1 ++ "=\x22" ++ kv.2 ++ "\x22") ""

mutual

/-- Deterministic model of lxml tostring(element): the byte content of an
XML document is identified with the serialization of its tree. -/
def serialize : Xml → String
  | Xml.node t a tx cs =>
      "<" ++ t ++ attrText a ++ ">" ++ tx ++ serializeList cs ++ "</" ++ t ++ ">"

/-- Serialization of a child list in order. -/
def serializeList : List Xml → String
  | [] => ""
  | x :: xs => serialize x ++ serializeList xs

end

/-- Option-valued map over a list, failing when any element fails: models a
Python for loop whose body can raise on an element. -/
def mapOpt (f : α → Option β) : List α → Option (List β)
  | [] => some []
  | x :: xs =>
    match f x, mapOpt f xs with
    | some y, some ys => some (y :: ys)
    | _, _ => none

/-- Rewrite the first list element satisfying p with f; none when no element
matches (modelling element.find returning None and the subsequent crash). -/
def rewriteFirst (p : Xml → Bool) (f : Xml → Xml) : List Xml → Option (List Xml)
  | [] => none
  | c :: cs =>
    if p c then some (f c :: cs)
    else (rewriteFirst p f cs).map (fun cs2 => c :: cs2)

/-! ## Updateinfo stripping (repository.py lines 153-213) -/

/-- Section metadata produced by the rewriters (repository.py dataclass
SectionMetadata). -/
structure SectionMetadata where
  size : Nat
  open_size : Nat
  open_checksum : String
  checksum : String
  local_path : String
  location : String
  checksum_type : String := "sha256"
  header_checksum : Option String := none
  header_size : Option Nat := none
deriving DecidableEq

/-- The keep predicate of UpdateInfoSection._strip: a package element is
removed when its arch attribute is present and not in the target set. -/
def keepPkg (arches : List String) (p : Xml) : Bool :=
  match getAttr p "arch" with
  | none => true
  | some a => arches.contains a

/-- Strip one collection element: filter its package children. -/
def stripCollection (arches : List String) (c : Xml) : Xml :=
  c.withChildren (c.children.filter (keepPkg arches))

/-- Strip one update element: update_element.find("pkglist") locates the
first pkglist child and every collection inside it is filtered; none models
the TypeError when there is no pkglist child. -/
def stripUpdate (arches : List String) (u : Xml) : Option Xml :=
  (rewriteFirst (fun c => c.tag == "pkglist")
      (fun pl => pl.withChildren (pl.children.map (stripCollection arches)))
      u.children).map u.withChildren

/-- UpdateInfoSection._strip over the whole updateinfo root. -/
def stripRoot (arches : List String) (root : Xml) : Option Xml :=
  (mapOpt (stripUpdate arches) root.children).map root.withChildren

/-- Embedding of UpdateInfoSection.strip_to_arches composed with
XZUpdateInfoSection._compress (repository.py lines 175-181 and 197-213).
sha models util.sha256 and lzc models lzma.compress; both are opaque.  As in
the source, open_size and open_checksum are taken from xml_bytes — the bytes
read from the file BEFORE stripping — while the compressed output is the
serialization of the stripped tree. -/
def xzStripToArches (sha lzc : String → String) (scratch : String)
    (root : Xml) (arches : List String) : Option SectionMetadata :=
  match stripRoot arches root with
  | none => none
  | some stripped =>
      some { open_checksum := sha (serialize root),
             checksum := sha (lzc (serialize stripped)),
             checksum_type := "sha256",
             size := (lzc (serialize stripped)).length,
             open_size := (serialize root).length,
             local_path :=
               scratch ++ "/" ++ sha (lzc (serialize stripped)) ++ "-updateinfo.xml.xz",
             location := "repodata/" ++ sha (lzc (serialize stripped)) ++ "-updateinfo.xml.xz" }

/-! ## Snapshot primary/repomd rewriting (repository.py lines 359-411) -/

/-- The href of the first location element of a child list. -/
def firstLoc (cs : List Xml) : Option String :=
  (cs.find? (fun c => c.tag == "location")).bind (fun c => getAttr c "href")

/-- The first location child's href, as read through
package_element.find("common:location"). -/
def locationHref (x : Xml) : Option String := firstLoc x.children

/-- Rewrite the first location child of a package element:
location.set("href", "../../" + location.get("href")); Python formats a
missing href as the string None.  none models the AttributeError when the
package has no location child. -/
def rewriteChildrenLoc : List Xml → Option (List Xml)
  | [] => none
  | c :: cs =>
    if c.tag == "location" then
      some (setAttr c "href" ("../../" ++ (getAttr c "href").getD "None") :: cs)
    else (rewriteChildrenLoc cs).map (fun cs2 => c :: cs2)

/-- One package element of the rewrite loop of RPMRepository._rewrite_primary. -/
def rewritePkg (pkg : Xml) : Option Xml :=
  (rewriteChildrenLoc pkg.children).map pkg.withChildren

/-- Embedding of RPMRepository._rewrite_primary (repository.py lines
359-392): every package location href is prefixed with ../../, the result is
re-serialized and compressed (gz models gzip.compress, sha models
util.sha256), and the section metadata records sha/length of the compressed
rewritten document and sha/length of the original decompressed bytes. -/
def rewritePrimary (sha gz : String → String) (tempDir : String) (root : Xml) :
    Option (Xml × SectionMetadata) :=
  match mapOpt rewritePkg root.children with
  | none => none
  | some cs =>
      some (root.withChildren cs,
        { open_checksum := sha (serialize root),
          checksum := sha (gz (serialize (root.withChildren cs))),
          checksum_type := "sha256",
          size := (gz (serialize (root.withChildren cs))).length,
          open_size := (serialize root).length,
          local_path :=
            tempDir ++ "/" ++ sha (gz (serialize (root.withChildren cs))) ++ "-primary.xml.gz",
          location := "repodata/" ++ sha (gz (serialize (root.withChildren cs))) ++ "-primary.xml.gz" })

/-- One child element of the data element in RPMRepository._rewrite_repomd
(repository.py lines 394-411): dispatch on the tag with the namespace
stripped. -/
def rewriteRepomdChild (snap : SectionMetadata) (e : Xml) : Xml :=
  if e.tag == "checksum" then e.withText snap.checksum
  else if e.tag == "open-checksum" then e.withText snap.open_checksum
  else if e.tag == "location" then setAttr e "href" snap.location
  else if e.tag == "size" then e.withText (toString snap.size)
  else if e.tag == "open-size" then e.withText (toString snap.open_size)
  else if e.tag == "header-size" then
    match snap.header_size with
    | some n => e.withText (toString n)
    | none => e
  else if e.tag == "header-checksum" then
    match snap.header_checksum with
    | some c => e.withText c
    | none => e
  else e

/-- Rewrite every child of a data element. -/
def rewriteDataElement (snap : SectionMetadata) (d : Xml) : Xml :=
  d.withChildren (d.children.map (rewriteRepomdChild snap))

/-- Match of repomd_xml.find("repo:data[@type='...']") against one child. -/
def isDataFor (sectionName : String) (c : Xml) : Bool :=
  c.tag == "data" && ((getAttr c "type").getD "" == sectionName)

/-- Embedding of RPMRepository._rewrite_repomd: locate the first data child
of the given section type and rewrite its children in place; none models the
TypeError when no such data element exists. -/
def rewriteRepomd (repomd : Xml) (snap : SectionMetadata) (sectionName : String) :
    Option Xml :=
  (rewriteFirst (isDataFor sectionName) (rewriteDataElement snap)
      repomd.children).map repomd.withChildren

/-! ## Concrete instances used by the theorems below -/

/-- A package whose destination contains a plus sign. -/
def c1plusObj : RepoObject :=
  { url := "https://u/repo/Packages/g/g++-1.rpm",
    destination := "/repo/Packages/g/g++-1.rpm",
    checksum_type := "sha256", checksum := "cg" }

/-- A package whose destination contains no plus sign. -/
def c1plainObj : RepoObject :=
  { url := "https://u/repo/Packages/f/foo-1.rpm",
    destination := "/repo/Packages/f/foo-1.rpm",
    checksum_type := "sha256", checksum := "cf" }

/-- A concrete package record. -/
def pkgA : Package :=
  { base_url := "https://u/repo/", name := "alpha", checksum := "c1",
    checksum_type := "sha256", location := "Packages/a/alpha-1.rpm",
    destination := "/repo/Packages/a/alpha-1.rpm", version := "1",
    epoch := "0", package_size := 10, release := "1",
    url := "https://u/repo/Packages/a/alpha-1.rpm" }

/-- Old-snapshot version of a package that was later updated. -/
def c10old : Package :=
  { base_url := "https://u/repo/", name := "pkgA", checksum := "x",
    checksum_type := "sha256", location := "Packages/p/pkgA-1-2.rpm",
    destination := "/repo/Packages/p/pkgA-1-2.rpm", version := "1",
    epoch := "0", package_size := 5, release := "2",
    url := "https://u/repo/Packages/p/pkgA-1-2.rpm" }

/-- New-snapshot version of the same package. -/
def c10new : Package :=
  { base_url := "https://u/repo/", name := "pkgA", checksum := "y",
    checksum_type := "sha256", location := "Packages/p/pkgA-1-3.rpm",
    destination := "/repo/Packages/p/pkgA-1-3.rpm", version := "1",
    epoch := "0", package_size := 6, release := "3",
    url := "https://u/repo/Packages/p/pkgA-1-3.rpm" }

/-- A repodata section of a snapshot, for the sync_snapshot theorem. -/
def c3section : RepodataSection :=
  { url := "https://m/repo/snapshots/s1/repodata/abc-primary.xml.gz",
    location := "repodata/abc-primary.xml.gz",
    destination := "/repo/snapshots/s1/repodata/abc-primary.xml.gz",
    checksum_type := "sha256", checksum := "abc" }

/-- An updateinfo document with one i686 package and one x86_64 package. -/
def uiRoot : Xml :=
  Xml.node "updates" [] ""
    [Xml.node "update" [] ""
      [Xml.node "pkglist" [] ""
        [Xml.node "collection" [] ""
          [Xml.node "package" [("arch", "i686")] "" [],
           Xml.node "package" [("arch", "x86_64")] "" []]]]]

/-- Result of stripping uiRoot to the target arch set \x7bx86_64\x7d. -/
def uiStripped : Xml :=
  Xml.node "updates" [] ""
    [Xml.node "update" [] ""
      [Xml.node "pkglist" [] ""
        [Xml.node "collection" [] ""
          [Xml.node "package" [("arch", "x86_64")] "" []]]]]

/-- A one-package primary.xml document. -/
def c7pkg : Xml :=
  Xml.node "package" [] ""
    [Xml.node "location" [("href", "Packages/a-1.rpm")] "" []]

/-- The primary root containing c7pkg. -/
def c7root : Xml := Xml.node "metadata" [] "" [c7pkg]

/-- c7pkg after the href rewrite. -/
def c7pkgRw : Xml :=
  Xml.node "package" [] ""
    [Xml.node "location" [("href", "../../Packages/a-1.rpm")] "" []]

/-- c7root after the href rewrite. -/
def c7rootRw : Xml := Xml.node "metadata" [] "" [c7pkgRw]

/-- Opaque stand-in hash for the witness computation. -/
def c7sha : String → String := fun _ => "CS"

/-- Opaque stand-in compressor for the witness computation. -/
def c7gz : String → String := fun _ => "GZ"

/-- The section metadata rewritePrimary produces on c7root with c7sha/c7gz. -/
def c7meta : SectionMetadata :=
  { open_checksum := "CS", checksum := "CS", checksum_type := "sha256",
    size := ("GZ" : String).length, open_size := (serialize c7root).length,
    local_path := "/t" ++ "/" ++ "CS" ++ "-primary.xml.gz",
    location := "repodata/" ++ "CS" ++ "-primary.xml.gz" }

/-- A repomd document with a single primary data element. -/
def c7repomd : Xml :=
  Xml.node "repomd" [] ""
    [Xml.node "data" [("type", "primary")] ""
      [Xml.node "checksum" [("type", "sha256")] "OLDSUM" [],
       Xml.node "open-checksum" [("type", "sha256")] "OLDOPEN" [],
       Xml.node "location" [("href", "repodata/old-primary.xml.gz")] "" [],
       Xml.node "size" [] "100" [],
       Xml.node "open-size" [] "200" []]]

/-- c7repomd after the primary data element is rewritten with c7meta. -/
def c7repomdRw : Xml :=
  Xml.node "repomd" [] ""
    [Xml.node "data" [("type", "primary")] ""
      [Xml.node "checksum" [("type", "sha256")] "CS" [],
       Xml.node "open-checksum" [("type", "sha256")] "CS" [],
       Xml.node "location" [("href", "repodata/" ++ "CS" ++ "-primary.xml.gz")] "" [],
       Xml.node "size" [] (toString (("GZ" : String).length)) [],
       Xml.node "open-size" [] (toString ((serialize c7root).length)) []]]

/-! ## Helper lemmas -/

/-- Every action of the skip-existing probe phase is a HEAD request. -/
theorem headTrace_isHead (ex : String → Bool) (o : RepoObject) :
    ∀ a ∈ headTrace ex o, ∃ k, a = S3Action.head k := by
  intro a ha
  unfold headTrace at ha
  cases hp : containsPlus o.destination with
  | false => simp [hp] at ha
  | true =>
    simp only [hp, if_true] at ha
    rcases List.mem_cons.mp ha with h | h
    · exact ⟨_, h⟩
    · cases hw : ex (workaroundKey o.destination) with
      | false => simp [hw] at h
      | true =>
        simp only [hw, if_true] at h
        exact ⟨_, List.mem_singleton.mp h⟩

/-- Replacing the children of a node and reading them back. -/
theorem children_withChildren (x : Xml) (cs : List Xml) :
    (x.withChildren cs).children = cs := by
  cases x
  rfl

/-- Setting an attribute does not change the tag. -/
theorem tag_setAttr (x : Xml) (k v : String) : (setAttr x k v).tag = x.tag := by
  cases x
  rfl

/-- Setting the text and reading it back. -/
theorem text_withText (x : Xml) (t : String) : (x.withText t).text = t := by
  cases x
  rfl

/-- Setting the text does not change the tag. -/
theorem tag_withText (x : Xml) (t : String) : (x.withText t).tag = x.tag := by
  cases x
  rfl

/-- Updating an existing attribute makes it readable. -/
theorem attrGet_map_upd (k v : String) :
    ∀ l : List (String × String), l.any (fun kv => kv.1 == k) = true →
    attrGet (l.map (fun kv => if kv.1 == k then (kv.1, v) else kv)) k = some v := by
  intro l
  induction l with
  | nil => intro h; simp at h
  | cons hd tl ih =>
    intro h
    cases hk : (hd.1 == k) with
    | true => simp [attrGet, hk]
    | false =>
      have h2 : tl.any (fun kv => kv.1 == k) = true := by
        simpa [List.any_cons, hk] using h
      simpa [attrGet, hk] using ih h2

/-- Appending a fresh attribute makes it readable. -/
theorem attrGet_append_new (k v : String) :
    ∀ l : List (String × String), l.any (fun kv => kv.1 == k) = false →
    attrGet (l ++ [(k, v)]) k = some v := by
  intro l
  induction l with
  | nil => intro _; simp [attrGet]
  | cons hd tl ih =>
    intro h
    rw [List.any_cons] at h
    obtain ⟨hk, h2⟩ := Bool.or_eq_false_iff.mp h
    simpa [attrGet, hk] using ih h2

/-- element.set followed by element.get of the same key. -/
theorem attrGet_attrSet (l : List (String × String)) (k v : String) :
    attrGet (attrSet l k v) k = some v := by
  unfold attrSet
  cases h : l.any (fun kv => kv.1 == k) with
  | true =>
    simp only [h, if_true]
    exact attrGet_map_upd k v l h
  | false =>
    simp only [h, Bool.false_eq_true, if_false]
    exact attrGet_append_new k v l h

/-- setAttr followed by getAttr of the same key. -/
theorem getAttr_setAttr (x : Xml) (k v : String) :
    getAttr (setAttr x k v) k = some v := by
  cases x with
  | node t a tx cs =>
    simpa [getAttr, setAttr, Xml.withAttrs, Xml.attrs] using attrGet_attrSet a k v

/-- Elementwise content of a successful mapOpt, along the zip of input and
output. -/
theorem mapOpt_zip (f : α → Option β) :
    ∀ (xs : List α) (ys : List β), mapOpt f xs = some ys →
      ∀ p ∈ xs.zip ys, f p.1 = some p.2 := by
  intro xs
  induction xs with
  | nil =>
    intro ys h p hp
    simp [mapOpt] at h
    subst h
    simp at hp
  | cons x xs ih =>
    intro ys h p hp
    rw [mapOpt] at h
    cases hfx : f x with
    | none => rw [hfx] at h; simp at h
    | some y =>
      rw [hfx] at h
      cases hm : mapOpt f xs with
      | none => rw [hm] at h; simp at h
      | some ys0 =>
        rw [hm] at h
        simp at h
        subst h
        rcases List.mem_cons.mp (by simpa [List.zip_cons_cons] using hp) with h | h
        · subst h; simpa using hfx
        · exact ih ys0 hm p h

/-- A successful rewriteFirst found a matching element and kept its image. -/
theorem rewriteFirst_found (p : Xml → Bool) (f : Xml → Xml) :
    ∀ (xs ys : List Xml), rewriteFirst p f xs = some ys →
      ∃ x ∈ xs, p x = true ∧ f x ∈ ys := by
  intro xs
  induction xs with
  | nil => intro ys h; simp [rewriteFirst] at h
  | cons c cs ih =>
    intro ys h
    cases hc : p c with
    | true =>
      rw [rewriteFirst] at h
      simp only [hc, if_true] at h
      injection h with h
      exact ⟨c, List.mem_cons_self c cs, hc, by rw [← h]; exact List.mem_cons_self _ _⟩
    | false =>
      rw [rewriteFirst] at h
      simp only [hc, Bool.false_eq_true, if_false] at h
      cases hr : rewriteFirst p f cs with
      | none => rw [hr] at h; simp at h
      | some ys0 =>
        rw [hr] at h
        simp at h
        obtain ⟨x, hx, hpx, hfx⟩ := ih ys0 hr
        exact ⟨x, List.mem_cons_of_mem _ hx, hpx, by rw [← h]; exact List.mem_cons_of_mem _ hfx⟩

/-- Rewriting the first location child rewrites the first location href. -/
theorem rewriteChildrenLoc_href :
    ∀ (cs cs2 : List Xml), rewriteChildrenLoc cs = some cs2 →
    ∀ hv, firstLoc cs = some hv → firstLoc cs2 = some ("../../" ++ hv) := by
  intro cs
  induction cs with
  | nil => intro cs2 h; simp [rewriteChildrenLoc] at h
  | cons c rest ih =>
    intro cs2 h hv hfirst
    cases hc : (c.tag == "location") with
    | true =>
      rw [rewriteChildrenLoc] at h
      simp only [hc, if_true] at h
      have hfc : List.find? (fun c => c.tag == "location") (c :: rest) = some c :=
        List.find?_cons_of_pos _ hc
      rw [firstLoc, hfc] at hfirst
      simp only [Option.some_bind] at hfirst
      have htag : ((setAttr c "href" ("../../" ++ (getAttr c "href").getD "None")).tag
          == "location") = true := by
        rw [tag_setAttr]; exact hc
      have hfpos : List.find? (fun c => c.tag == "location")
          (setAttr c "href" ("../../" ++ (getAttr c "href").getD "None") :: rest) =
          some (setAttr c "href" ("../../" ++ (getAttr c "href").getD "None")) :=
        List.find?_cons_of_pos _ htag
      injection h with h
      rw [← h, firstLoc, hfpos]
      simp only [Option.some_bind]
      rw [getAttr_setAttr, hfirst]
      simp
    | false =>
      rw [rewriteChildrenLoc] at h
      simp only [hc, Bool.false_eq_true, if_false] at h
      cases hr : rewriteChildrenLoc rest with
      | none => rw [hr] at h; simp at h
      | some rest2 =>
        rw [hr] at h
        simp at h
        have hneg1 : List.find? (fun c => c.tag == "location") (c :: rest) =
            List.find? (fun c => c.tag == "location") rest :=
          List.find?_cons_of_neg _ (by simp [hc])
        have hneg2 : List.find? (fun c => c.tag == "location") (c :: rest2) =
            List.find? (fun c => c.tag == "location") rest2 :=
          List.find?_cons_of_neg _ (by simp [hc])
        rw [firstLoc, hneg1] at hfirst
        rw [← h, firstLoc, hneg2]
        exact ih rest2 hr hv hfirst

/-- The package-location rewrite of _rewrite_primary prefixes the first
location href with dot-dot segments. -/
theorem rewritePkg_href (pkg rpkg : Xml) (h : rewritePkg pkg = some rpkg) :
    ∀ hv, locationHref pkg = some hv → locationHref rpkg = some ("../../" ++ hv) := by
  intro hv hl
  unfold rewritePkg at h
  cases hr : rewriteChildrenLoc pkg.children with
  | none => rw [hr] at h; simp at h
  | some cs2 =>
    rw [hr] at h
    simp at h
    rw [locationHref, ← h, children_withChildren]
    exact rewriteChildrenLoc_href pkg.children cs2 hr hv hl

/-- The repomd child rewrite preserves tags. -/
theorem rewriteRepomdChild_tag (snap : SectionMetadata) (e : Xml) :
    (rewriteRepomdChild snap e).tag = e.tag := by
  cases e with
  | node t a tx cs =>
    unfold rewriteRepomdChild
    split_ifs <;>
      first
        | rfl
        | (cases snap.header_size <;> rfl)
        | (cases snap.header_checksum <;> rfl)

/-- The repomd child rewrite on a checksum element writes the new checksum. -/
theorem rewriteRepomdChild_checksum (snap : SectionMetadata) (e : Xml)
    (h : e.tag = "checksum") : (rewriteRepomdChild snap e).text = snap.checksum := by
  cases e with
  | node t a tx cs =>
    simp only [Xml.tag] at h
    subst h
    rfl

/-- The repomd child rewrite on a size element writes the new size. -/
theorem rewriteRepomdChild_size (snap : SectionMetadata) (e : Xml)
    (h : e.tag = "size") : (rewriteRepomdChild snap e).text = toString snap.size := by
  cases e with
  | node t a tx cs =>
    simp only [Xml.tag] at h
    subst h
    rfl

/-! ## Claim theorems -/

/-- C1, counterexample to the claim as stated: for the transfer object with
destination /repo/Packages/f/foo-1.rpm (no plus sign) and an object store in
which every key exists, the claim predicts that the existence check passes
and the task returns without downloading or uploading; in the code the check
of s3.py lines 120-122 evaluates to false and the task downloads and uploads
the object. -/
theorem c1_skip_counterexample :
    containsPlus c1plainObj.destination = false ∧
    (fun (_ : String) => true) c1plainObj.destination = true ∧
    skipCheck (fun _ => true) c1plainObj.destination = false ∧
    S3Action.download c1plainObj.url ∈ syncObject (fun _ => true) "/t" true c1plainObj ∧
    S3Action.put c1plainObj.destination ∈ syncObject (fun _ => true) "/t" true c1plainObj := by
  decide

/-- C1 (amended): for every transfer task run with skip_existing=true, if
the existence check passes the task returns after the HEAD probes, without
downloading or uploading; for a destination containing a plus sign the check
passes only when both the exact key and the space-substituted variant exist;
for a destination without a plus sign the check never passes, so such an
object is always downloaded and uploaded again. -/
theorem c1_skip_amended : ∀ (ex : String → Bool) (tempDir : String) (o : RepoObject),
    (skipCheck ex o.destination = true →
      syncObject ex tempDir true o = headTrace ex o ∧
      ∀ a ∈ syncObject ex tempDir true o, ∃ k, a = S3Action.head k) ∧
    (containsPlus o.destination = true → skipCheck ex o.destination = true →
      ex o.destination = true ∧ ex (workaroundKey o.destination) = true) ∧
    (containsPlus o.destination = false → skipCheck ex o.destination = false) := by
  intro ex td o
  refine ⟨fun h => ?_, fun hp h => ?_, fun hp => ?_⟩
  · have he : syncObject ex td true o = headTrace ex o := by
      simp [syncObject, h]
    exact ⟨he, by rw [he]; exact headTrace_isHead ex o⟩
  · rw [skipCheck, Bool.and_eq_true, Bool.and_eq_true] at h
    exact ⟨h.2, h.1.2⟩
  · simp [skipCheck, hp]

/-- Witness for c1_skip_amended: a plus-sign destination with both variants
present is skipped after the HEAD probes, and a plain destination never
passes the check even when every key exists. -/
theorem c1_skip_amended_witness :
    syncObject (fun _ => true) "/t" true c1plusObj = headTrace (fun _ => true) c1plusObj ∧
    ((fun (_ : String) => true) c1plusObj.destination = true ∧
      (fun (_ : String) => true) (workaroundKey c1plusObj.destination) = true) ∧
    skipCheck (fun _ => true) c1plainObj.destination = false :=
  ⟨((c1_skip_amended (fun _ => true) "/t" c1plusObj).1 (by decide)).1,
   (c1_skip_amended (fun _ => true) "/t" c1plusObj).2.1 (by decide) (by decide),
   (c1_skip_amended (fun _ => true) "/t" c1plainObj).2.2 (by decide)⟩

/-- C2: the cutover call of mirror.py line 119 passes only base_url to
S3.overwrite_repomd, whose signature (s3.py line 81) requires
repomd_xml_local_path as well; the call raises TypeError for every base_url,
so no fresh download of the upstream repomd.xml and no PUT with max-age=0
ever happens at the cutover step. -/
theorem c2_cutover_type_error : ∀ baseUrl : String,
    mirrorCutover baseUrl = Except.error PyError.typeError := fun _ => rfl

/-- C3: on a snapshot with one repodata section, the final put_object of
Mirror.sync_snapshot (mirror.py line 188) stores the LAST downloaded
section file (abc-primary.xml.gz) under repodata/repomd.xml, which differs
from the snapshot's own downloaded repomd.xml. -/
theorem c3_sync_snapshot_repomd_put_bug :
    syncSnapshotRepo "/t" "/repo/snapshots/s1" [c3section] =
      Except.ok
        [("/repo/snapshots/s1/repodata/abc-primary.xml.gz", "/t/abc-primary.xml.gz"),
         ("/repo/snapshots/s1/repodata/repomd.xml", "/t/abc-primary.xml.gz")] ∧
    ("/t/abc-primary.xml.gz" : String) ≠ snapshotRepomdLocal "/t" := by
  constructor
  · rfl
  · decide

/-- C5: stripping the example updateinfo document (one i686 package, one
x86_64 package) to the target arch set containing x86_64 removes the i686
package, yet the recorded open_size and open_checksum are length and hash of
the PRE-strip bytes, whose length differs from the stripped serialization's
length; the claim requires them to describe the stripped pre-compression
bytes. -/
theorem c5_updateinfo_open_metadata_bug :
    ∀ (sha lzc : String → String) (scratch : String),
    ∃ meta : SectionMetadata,
      stripRoot ["x86_64"] uiRoot = some uiStripped ∧
      xzStripToArches sha lzc scratch uiRoot ["x86_64"] = some meta ∧
      meta.open_size = (serialize uiRoot).length ∧
      meta.open_checksum = sha (serialize uiRoot) ∧
      (serialize uiStripped).length ≠ (serialize uiRoot).length := by
  intro sha lzc scratch
  exact ⟨_, rfl, rfl, rfl, rfl, by decide⟩

/-- C6, counterexample to the claim as stated: with equal upstream and
mirror package lists the computed new-package set is empty, yet the
non-bootstrap sync still drives the transfer pool (sync_packages with zero
packages) and still writes a manifest. -/
theorem c6_empty_sync_counterexample :
    keyDiff [pkgA] [pkgA] = [] ∧
    SyncStep.syncPackages [] false ∈ syncRepository false true [pkgA] [pkgA] ∧
    SyncStep.putManifest [] ∈ syncRepository false true [pkgA] [pkgA] := by
  decide

/-- C6 (amended): for every non-bootstrap sync of a repository whose
upstream repomd.xml is newer but whose computed new-package set is empty,
the transfer pool IS driven (with the empty package set plus the upstream
repodata sections, skip_existing=false) and a manifest with an empty
synced-package list IS written before the cutover call; mirror.py lines
91-119 have no emptiness guard. -/
theorem c6_empty_sync_amended : ∀ (upstream mirror : List Package),
    keyDiff upstream mirror = [] →
    syncRepository false true upstream mirror =
      [SyncStep.syncPackages [] false, SyncStep.archiveRepomd,
       SyncStep.putManifest [], SyncStep.cutoverCall] := by
  intro u m h
  simp [syncRepository, h]

/-- Witness for c6_empty_sync_amended on equal concrete package lists. -/
theorem c6_empty_sync_amended_witness :
    syncRepository false true [pkgA] [pkgA] =
      [SyncStep.syncPackages [] false, SyncStep.archiveRepomd,
       SyncStep.putManifest [], SyncStep.cutoverCall] :=
  c6_empty_sync_amended [pkgA] [pkgA] (by decide)

/-- C8: when the primary checksums recorded in the two snapshots' repomd.xml
files are equal (in particular for a snapshot diffed against itself),
diff_snapshots reports no changes for the repository and never downloads or
parses the primary package lists. -/
theorem c8_diff_short_circuit : ∀ (repo1 repo2 : SnapshotRepo),
    repo1.primaryChecksum = repo2.primaryChecksum →
    diffSnapshotsRepo repo1 repo2 = (none, false) := by
  intro a b h
  simp [diffSnapshotsRepo, h]

/-- Witness for c8_diff_short_circuit: a snapshot diffed against itself. -/
theorem c8_diff_short_circuit_witness :
    diffSnapshotsRepo ⟨"csum", [pkgA]⟩ ⟨"csum", [pkgA]⟩ = (none, false) :=
  c8_diff_short_circuit ⟨"csum", [pkgA]⟩ ⟨"csum", [pkgA]⟩ rfl

/-- C4, counterexample to the claim as stated: with new list [pkgA] and old
list [], the set new_list minus old_list contains pkgA, but the changed set
computed by diff_snapshots (old minus new) does not contain it. -/
theorem c4_diff_direction_counterexample :
    keyMem pkgA (changedPackages [pkgA] []) = false ∧
    keyMem pkgA [pkgA] = true ∧
    keyMem pkgA ([] : List Package) = false := by
  decide

/-- C4 (amended): diff_snapshots computes the changed-package set as
old_list minus new_list under the Package identity key: a package key is in
the computed set exactly when it occurs in the old snapshot's list and not
in the new snapshot's list. -/
theorem c4_diff_direction_amended : ∀ (newList oldList : List Package) (p : Package),
    keyMem p (changedPackages newList oldList) = true ↔
      (keyMem p oldList = true ∧ keyMem p newList = false) := by
  intro nl ol p
  constructor
  · intro h
    rw [changedPackages, keyDiff, keyMem, List.any_eq_true] at h
    obtain ⟨q, hq, hbq⟩ := h
    obtain ⟨hqm, hkeep⟩ := List.mem_filter.mp hq
    have hkey : pkgKey q = pkgKey p := by simpa using hbq
    constructor
    · rw [keyMem, List.any_eq_true]
      exact ⟨q, hqm, hbq⟩
    · have h1 : keyMem q nl = false := by simpa using hkeep
      rw [show keyMem p nl = keyMem q nl from by rw [keyMem, keyMem, hkey]]
      exact h1
  · rintro ⟨h1, h2⟩
    rw [keyMem, List.any_eq_true] at h1
    obtain ⟨q, hqm, hbq⟩ := h1
    have hkey : pkgKey q = pkgKey p := by simpa using hbq
    rw [changedPackages, keyDiff, keyMem, List.any_eq_true]
    refine ⟨q, List.mem_filter.mpr ⟨hqm, ?_⟩, hbq⟩
    have hq : keyMem q nl = false := by
      rw [show keyMem q nl = keyMem p nl from by rw [keyMem, keyMem, hkey]]
      exact h2
    simp [hq]

/-- C7: every package location href in the rewritten primary document equals
dot-dot-slash twice prepended to the original href, and the rewritten
repomd's primary data element carries checksum = sha256 of the
gzip-compressed rewritten primary bytes and size = the length of those
compressed bytes (repository.py _rewrite_primary and _rewrite_repomd). -/
theorem c7_snapshot_rewrite :
    ∀ (sha gz : String → String) (tempDir : String) (root repomd rewritten : Xml)
      (meta : SectionMetadata) (repomdOut : Xml),
    rewritePrimary sha gz tempDir root = some (rewritten, meta) →
    rewriteRepomd repomd meta "primary" = some repomdOut →
    ((∀ pr ∈ root.children.zip rewritten.children,
        ∀ hv, locationHref pr.1 = some hv →
          locationHref pr.2 = some ("../../" ++ hv)) ∧
      meta.checksum = sha (gz (serialize rewritten)) ∧
      meta.size = (gz (serialize rewritten)).length ∧
      ∃ d ∈ repomd.children, isDataFor "primary" d = true ∧
        rewriteDataElement meta d ∈ repomdOut.children ∧
        ∀ c ∈ (rewriteDataElement meta d).children,
          (c.tag = "checksum" → c.text = sha (gz (serialize rewritten))) ∧
          (c.tag = "size" → c.text = toString (gz (serialize rewritten)).length)) := by
  intro sha gz td root repomd rewritten meta out h1 h2
  rw [rewritePrimary] at h1
  cases hm : mapOpt rewritePkg root.children with
  | none => rw [hm] at h1; simp at h1
  | some cs =>
    rw [hm] at h1
    injection h1 with h1
    injection h1 with ha hb
    subst ha
    subst hb
    refine ⟨?_, rfl, rfl, ?_⟩
    · intro pr hpr hv hl
      rw [children_withChildren] at hpr
      exact rewritePkg_href pr.1 pr.2 (mapOpt_zip rewritePkg root.children cs hm pr hpr) hv hl
    · rw [rewriteRepomd] at h2
      cases hf : rewriteFirst (isDataFor "primary") (rewriteDataElement _) repomd.children with
      | none => rw [hf] at h2; simp at h2
      | some ys =>
        rw [hf] at h2
        simp only [Option.map_some'] at h2
        injection h2 with h2
        obtain ⟨d, hd, hpd, hfd⟩ := rewriteFirst_found _ _ repomd.children ys hf
        refine ⟨d, hd, hpd, ?_, ?_⟩
        · rw [← h2, children_withChildren]
          exact hfd
        · intro c hc
          rw [rewriteDataElement, children_withChildren] at hc
          obtain ⟨c0, hc0, hceq⟩ := List.mem_map.mp hc
          subst hceq
          constructor
          · intro htag
            have h0 : c0.tag = "checksum" := by
              rw [← rewriteRepomdChild_tag _ c0]
              exact htag
            exact (rewriteRepomdChild_checksum _ c0 h0).trans rfl
          · intro htag
            have h0 : c0.tag = "size" := by
              rw [← rewriteRepomdChild_tag _ c0]
              exact htag
            exact (rewriteRepomdChild_size _ c0 h0).trans rfl

/-- Witness for c7_snapshot_rewrite on the concrete one-package primary and
one-data-element repomd, with stand-in hash and compressor. -/
theorem c7_snapshot_rewrite_witness :
    c7meta.checksum = c7sha (c7gz (serialize c7rootRw)) ∧
    c7meta.size = (c7gz (serialize c7rootRw)).length ∧
    locationHref c7pkgRw = some ("../../" ++ "Packages/a-1.rpm") := by
  have h := c7_snapshot_rewrite c7sha c7gz "/t" c7root c7repomd c7rootRw c7meta
    c7repomdRw rfl rfl
  exact ⟨h.2.1, h.2.2.1,
    h.1 (c7pkg, c7pkgRw) (List.Mem.head _) "Packages/a-1.rpm" rfl⟩

/-- Equality of the Python regex match and the mathematical full match on
strings without a newline. -/
theorem reMatch_eq_mathMatch (s : String) (h : hasNewline s = false) :
    reMatchSnapshot s = mathMatch s := by
  unfold hasNewline at h
  unfold reMatchSnapshot pyMatchChars mathMatch
  cases hl : s.data.getLast? with
  | none => simp [hl]
  | some c =>
    cases hc : (c == '\n') with
    | true =>
      have hmem : c ∈ s.data := List.mem_of_getLast?_eq_some hl
      have hcon : s.data.any (fun c => c == '\n') = true :=
        List.any_eq_true.mpr ⟨c, hmem, hc⟩
      rw [h] at hcon
      exact absurd hcon (by decide)
    | false => simp [hl, hc]

/-- C9: with no pre-existing snapshot directory for the id in any configured
repository, _validate_snapshot_id raises InvalidSnapshotID exactly when the
id does not fully match [A-Za-z0-9_-]+ or contains a newline, and otherwise
returns without error.  (A body followed by one trailing newline satisfies
Python's re.match against the anchored pattern, and is caught by the
explicit newline check.) -/
theorem c9_validate_snapshot_id :
    ∀ (dirExists : String → Bool) (repoPaths : List String) (s : String),
    (∀ r ∈ repoPaths, dirExists (getSnapshotDirectory r s) = false) →
    (isErr (validateSnapshotId dirExists repoPaths s) = true ↔
      (mathMatch s = false ∨ hasNewline s = true)) := by
  intro de rp s hfree
  unfold validateSnapshotId
  cases hm : reMatchSnapshot s with
  | false =>
    have hmm : mathMatch s = false := by
      unfold reMatchSnapshot pyMatchChars at hm
      unfold mathMatch
      exact (Bool.or_eq_false_iff.mp hm).1
    simp [isErr, hm, hmm]
  | true =>
    cases hn : hasNewline s with
    | true => simp [isErr, hm, hn]
    | false =>
      have hany : (rp.any fun r => de (getSnapshotDirectory r s)) = false := by
        rw [List.any_eq_false]
        intro r hr
        simp [hfree r hr]
      have hmm : mathMatch s = true := by
        rw [← reMatch_eq_mathMatch s hn]
        exact hm
      simp [isErr, hm, hn, hany, hmm]

/-- Witness for c9_validate_snapshot_id with no configured repositories and
a plain well-formed id. -/
theorem c9_validate_snapshot_id_witness :
    isErr (validateSnapshotId (fun _ => false) [] "abc-123") = true ↔
      (mathMatch "abc-123" = false ∨ hasNewline "abc-123" = true) :=
  c9_validate_snapshot_id (fun _ => false) [] "abc-123" (by simp)

/-- C10: a name that does not occur in the new snapshot's package list never
appears as a key of the reported diff: removed packages are silently
omitted by diff_snapshots (the name lookup into the new-package dict yields
nothing and no entry is emitted). -/
theorem c10_removed_packages_omitted :
    ∀ (newList oldList : List Package) (nm : String),
    (∀ q ∈ newList, q.name ≠ nm) →
    ∀ e ∈ diffUpdated newList oldList, e.1 ≠ nm := by
  intro nl ol nm hn e he
  obtain ⟨p, hp, hfp⟩ := List.mem_filterMap.mp he
  cases hd : nameDict nl p.name with
  | none =>
    rw [hd] at hfp
    simp at hfp
  | some orig =>
    rw [hd] at hfp
    simp only [Option.map_some'] at hfp
    injection hfp with hfp
    have hd2 : nl.reverse.find? (fun q => q.name == p.name) = some orig := by
      rw [nameDict] at hd
      exact hd
    have hmem : orig ∈ nl := List.mem_reverse.mp (List.mem_of_find?_eq_some hd2)
    have hpred := List.find?_some hd2
    have hname : orig.name = p.name := by simpa using hpred
    intro hcon
    rw [← hfp] at hcon
    exact hn orig hmem (by rw [hname]; exact hcon)

/-- Witness for c10_removed_packages_omitted: the only reported entry of the
concrete diff is keyed pkgA, not the absent name. -/
theorem c10_removed_packages_omitted_witness :
    (("pkgA", (("1", "2"), ("1", "3"))) :
      String × ((String × String) × (String × String))).1 ≠ "gone" :=
  c10_removed_packages_omitted [c10new] [c10old] "gone" (by decide)
    ("pkgA", (("1", "2"), ("1", "3"))) (by decide)

end RpmS3
